import Mathlib

/-
  Verification development for the MedAI front-end repository.

  The repository is a collection of near-duplicate revisions of a single-page
  browser app.  The definitions below are shallow embeddings of the concrete
  functions the specification talks about: the resilient fetch envelopes
  (timeout + retry + backoff + status classification), the response validators,
  the confidence presenters, the session store, the abort-controller handling
  and the service-worker fetch handler.  Each definition's doc comment names
  the source file and function it is translated from.

  Machine integers are modelled as `Int` (HTTP status codes, confidence
  scores) and `Nat` (delays in milliseconds, request counts).  Servers are
  modelled as functions from the attempt index to the outcome of that
  attempt's transport operation, which makes the single-threaded await-based
  control flow of the JS code a pure function of those outcomes.
-/

/- ===================== JSON values ===================== -/

/-- Decoded JSON values as seen by the JS validators.  `undefined` models the JS
`undefined` value produced by accessing an absent property. -/
inductive Json where
  | undefined
  | null
  | bool (b : Bool)
  | num (n : Int)
  | str (s : String)
  | arr (elems : List Json)
  | obj (fields : List (String × Json))

/-- Property lookup in an object's field list; absent keys give `undefined`. -/
def Json.lookupField : List (String × Json) → String → Json
  | [], _ => .undefined
  | (k, v) :: rest, key => if k = key then v else Json.lookupField rest key

/-- JS property access `data.key`: `undefined` on every non-object value. -/
def Json.get : Json → String → Json
  | .obj fields, key => Json.lookupField fields key
  | _, _ => .undefined

/-- JS truthiness (`undefined`, `null`, `false`, `0` and `""` are falsy). -/
def Json.truthy : Json → Bool
  | .undefined => false
  | .null => false
  | .bool b => b
  | .num n => decide (n ≠ 0)
  | .str s => decide (s ≠ "")
  | .arr _ => true
  | .obj _ => true

/-- JS `typeof x === "object"` (true for objects, arrays and `null`). -/
def Json.typeofObject : Json → Bool
  | .null => true
  | .arr _ => true
  | .obj _ => true
  | _ => false

/-- JS `typeof x === "string"`. -/
def Json.typeofString : Json → Bool
  | .str _ => true
  | _ => false

/-- JS `typeof x === "number"`. -/
def Json.typeofNumber : Json → Bool
  | .num _ => true
  | _ => false

/-- JS `Array.isArray(x)`. -/
def Json.isArray : Json → Bool
  | .arr _ => true
  | _ => false

/- ===================== Response validators ===================== -/

/-- auth.js `MedAIApp.validateResponseSchema` (second revision, lines 409-417):
`data && typeof data === "object" && typeof data.diagnosis === "string" &&
Array.isArray(data.findings) && typeof data.confidence === "number"`. -/
def validateResponseSchema (data : Json) : Bool :=
  data.truthy && data.typeofObject
    && (data.get "diagnosis").typeofString
    && (data.get "findings").isArray
    && (data.get "confidence").typeofNumber

/-- part_001 `MedAICore.validateAIResponse` (v2.0.0 revision, lines 1113-1119):
`data && (typeof data.confidence === 'number' || data.diagnosis || data.findings)`. -/
def validateAIResponse (data : Json) : Bool :=
  data.truthy &&
    ((data.get "confidence").typeofNumber
      || (data.get "diagnosis").truthy
      || (data.get "findings").truthy)

/-- The spec's required response shape (section 4.2): a string `diagnosis`, a
numeric `confidence` and an array `findings`; extra fields are irrelevant. -/
def specRequiredShape (data : Json) : Bool :=
  (data.get "diagnosis").typeofString
    && (data.get "confidence").typeofNumber
    && (data.get "findings").isArray

/- ===================== Confidence presenters ===================== -/

/-- part_002 `Utils.clamp` (v2.2 revision): `Math.min(Math.max(num, min), max)`. -/
def clamp (num lo hi : Int) : Int := min (max num lo) hi

/-- dash.js `MedAIApp.updateConfidence` (lines 560-568): the number rendered
into the confidence gauge, `Math.min(100, Math.max(0, score))`. -/
def updateConfidence (score : Int) : Int := min 100 (max 0 score)

/-- part_002 `MedAIApp.displayResults` (v2.2 revision, lines 478-493): the
score shown when `data.confidence` is the number `c`:
`Utils.clamp(data?.confidence ?? 0, 0, 100)`. -/
def displayResultsScore (c : Int) : Int := clamp c 0 100

/-- part_001 `MedAICore.displayDiagnosis` (ULTIMATE v2.0.0 revision, lines
1746-1772): the confidence shown is `data.confidence || 0` with no clamping;
for a number `c` the JS `||` yields `0` when `c = 0` and `c` otherwise. -/
def displayDiagnosisConfidence (c : Int) : Int := if c = 0 then 0 else c

/-- The spec's display invariant (section 3): confidence is clamped into
[0,100] to the nearest bound before being shown. -/
def specClampedConfidence (c : Int) : Int := min 100 (max 0 c)

/- ===================== Session store and transport outcomes ===================== -/

/-- The Session Store state: the `medai_token` and `medai_user` entries in
localStorage plus whether a redirect to the login page has been issued. -/
structure Store where
  token : Option String
  user : Option String
  redirectedToLogin : Bool
deriving DecidableEq

/-- auth.js `MedAIApp.logout` (second revision, lines 284-288): removes
`medai_token` and `medai_user` and navigates to the login page. -/
def logout (_st : Store) : Store :=
  { token := none, user := none, redirectedToLogin := true }

/-- Outcome of one transport attempt: the fetch promise either rejects
(network error or timeout-triggered abort, carrying an error id) or resolves
with an HTTP response of the given status. -/
inductive AttemptOutcome where
  | throw (e : Nat)
  | resp (status : Int)

/-- JS `response.ok`: status in 200..299. -/
def statusOk (s : Int) : Bool := decide (200 ≤ s) && decide (s < 300)

/-- Status 401 or 403 (auth rejection). -/
def isAuthStatus (s : Int) : Bool := decide (s = 401) || decide (s = 403)

/-- auth.js `Config.RETRYABLE_STATUS = [502, 503, 504]`. -/
def retryableStatus (s : Int) : Bool :=
  decide (s = 502) || decide (s = 503) || decide (s = 504)

/-- How one `fetchSecure` call resolves. -/
inductive FetchResult where
  | undefined                 -- resolved with `undefined` (auth rejection / missing token)
  | ok (status : Int)     -- returned the response (status in 200..299)
  | errThrown (e : Nat)   -- rethrew a transport error after exhausting retries
  | errServer (status : Int)  -- threw `Server error <status>` after exhausting retries
deriving DecidableEq

/-- Observable trace of one envelope call: how it resolved, how many transport
requests it made, the backoff delays (in order) and the final session store. -/
structure FetchTrace where
  result : FetchResult
  requests : Nat
  delays : List Nat
  store : Store
deriving DecidableEq

/-- Account for one more request issued before a retry that waited `d` ms. -/
def FetchTrace.retried (t : FetchTrace) (d : Nat) : FetchTrace :=
  { t with requests := t.requests + 1, delays := d :: t.delays }

/- ===================== auth.js fetchSecure ===================== -/

/-- auth.js `MedAIApp.fetchSecure` retry loop (second revision, lines
332-374), `Config.MAX_RETRIES = 2`.  `attempt` is the loop index and
`remaining = MAX_RETRIES - attempt` counts the retries still allowed, so the
code's `attempt < MAX_RETRIES` is `remaining > 0` here.  On a response the
code first handles 401/403 (notify, `logout()`, resolve `undefined`), then a
non-ok status either continues after `sleep(1000 * (attempt + 1))` (the
retryable branch, and equally the `throw` caught by the catch block when
`attempt < MAX_RETRIES` — both continue with the same delay, so the two
branches are merged below) or rethrows the `Server error` at the last
attempt.  A rejected fetch is retried the same way by the catch block. -/
def fetchSecureGo (server : Nat → AttemptOutcome) (st : Store) :
    Nat → Nat → FetchTrace
  | attempt, 0 =>
    match server attempt with
    | .resp s =>
      if isAuthStatus s then ⟨.undefined, 1, [], logout st⟩
      else if statusOk s then ⟨.ok s, 1, [], st⟩
      else ⟨.errServer s, 1, [], st⟩
    | .throw e => ⟨.errThrown e, 1, [], st⟩
  | attempt, r + 1 =>
    match server attempt with
    | .resp s =>
      if isAuthStatus s then ⟨.undefined, 1, [], logout st⟩
      else if statusOk s then ⟨.ok s, 1, [], st⟩
      else (fetchSecureGo server st (attempt + 1) r).retried (1000 * (attempt + 1))
    | .throw _ => (fetchSecureGo server st (attempt + 1) r).retried (1000 * (attempt + 1))

/-- auth.js `MedAIApp.fetchSecure` (second revision, lines 325-375): with no
stored token it logs out and resolves `undefined` without any request;
otherwise it runs the retry loop from attempt 0 with 2 retries allowed. -/
def fetchSecure (server : Nat → AttemptOutcome) (st : Store) : FetchTrace :=
  match st.token with
  | none => ⟨.undefined, 0, [], logout st⟩
  | some _ => fetchSecureGo server st 0 2

/- ===================== part_001 MedAICore.uploadToAI (v1.1.0) ===================== -/

/-- How one `MedAICore.uploadToAI` call resolves. -/
inductive UploadOutcome where
  | okJson                -- resolved with the parsed body
  | authThrow             -- threw `Session invalid. Re-authenticating...`
  | busyThrow             -- threw `AI engine busy. Try again.`
  | fetchThrow (e : Nat)  -- the fetch rejection propagated out
deriving DecidableEq

/-- part_001 `MedAICore.uploadToAI` (v1.1.0 revision, lines 528-554): a single
fetch (no loop).  On `[401, 403].includes(res.status)` it removes
`medai_token` from storage and throws; any other non-ok status throws a busy
error; there is no catch, so a fetch rejection propagates unchanged.  The
returned `Nat` is the number of transport requests made (always 1). -/
def uploadToAI (outcome : AttemptOutcome) (st : Store) :
    UploadOutcome × Nat × Store :=
  match outcome with
  | .throw e => (.fetchThrow e, 1, st)
  | .resp s =>
    if isAuthStatus s then (.authThrow, 1, { st with token := none })
    else if statusOk s then (.okJson, 1, st)
    else (.busyThrow, 1, st)

/- ===================== part_001 MedAIApp.fetchWithRetry (v2.6.0) ===================== -/

/-- How one part_001 `fetchWithRetry` call resolves. -/
inductive P1Result where
  | ok (status : Int)        -- returned a 2xx response
  | errHTTP (status : Int)   -- threw `HTTP <status>` after exhausting retries
  | errThrown (e : Nat)      -- rethrew a transport error after exhausting retries
deriving DecidableEq

/-- Observable trace of one part_001 `fetchWithRetry` call.  The function
never touches the session store, so no store field appears. -/
structure P1Trace where
  result : P1Result
  requests : Nat
  delays : List Nat
deriving DecidableEq

/-- Account for one more request issued before a retry that waited `d` ms. -/
def P1Trace.retried (t : P1Trace) (d : Nat) : P1Trace :=
  { t with requests := t.requests + 1, delays := d :: t.delays }

/-- part_001 `MedAIApp.fetchWithRetry` (v2.6.0 revision, lines 171-187),
`Config.MAX_RETRIES = 2`.  Any non-ok response — including 401/403 — throws
`HTTP <status>` inside the try, and the catch retries every error after
`sleep(1000 * Math.pow(2, i))` while `i < retries` (`remaining > 0` here). -/
def fetchWithRetryP1 (server : Nat → AttemptOutcome) :
    Nat → Nat → P1Trace
  | i, 0 =>
    match server i with
    | .resp s =>
      if statusOk s then ⟨.ok s, 1, []⟩ else ⟨.errHTTP s, 1, []⟩
    | .throw e => ⟨.errThrown e, 1, []⟩
  | i, r + 1 =>
    match server i with
    | .resp s =>
      if statusOk s then ⟨.ok s, 1, []⟩
      else (fetchWithRetryP1 server (i + 1) r).retried (1000 * 2 ^ i)
    | .throw _ => (fetchWithRetryP1 server (i + 1) r).retried (1000 * 2 ^ i)

/-- part_001 `MedAIApp.fetchWithRetry` entered with the default
`retries = Config.MAX_RETRIES = 2`. -/
def fetchWithRetryP1Top (server : Nat → AttemptOutcome) : P1Trace :=
  fetchWithRetryP1 server 0 2

/- ===================== part_002 HttpClient.post (v2.2) ===================== -/

/-- Outcome of one transport attempt for `HttpClient.post`, distinguishing the
error classes its catch block retries (`AbortError` or `TypeError`) from the
ones it rethrows. -/
inductive PostOutcome where
  | resp (status : Int)
  | throwRetryable (e : Nat)   -- AbortError / TypeError
  | throwOther (e : Nat)
deriving DecidableEq

/-- How one `HttpClient.post` call resolves. -/
inductive HPResult where
  | ok (status : Int)          -- resolved with the parsed body of a 2xx response
  | errStatus (status : Int)   -- threw `Server Error: <status>`
  | errThrown (e : Nat)        -- rethrew a transport error
deriving DecidableEq

/-- Observable trace of one `HttpClient.post` call. -/
structure HPTrace where
  result : HPResult
  requests : Nat
  delays : List Nat
deriving DecidableEq

/-- Account for one more request issued before a retry that waited `d` ms. -/
def HPTrace.retried (t : HPTrace) (d : Nat) : HPTrace :=
  { t with requests := t.requests + 1, delays := d :: t.delays }

/-- part_002 `Utils.backoffDelay` (v2.2 revision, lines 298-300):
`RETRY_BASE_DELAY * Math.pow(2, attempt) + Math.random() * 300` with
`RETRY_BASE_DELAY = 1000`; the random jitter is modelled as an arbitrary
function of the attempt index, constrained to `< 300` in the theorems. -/
def backoffDelay (jitter : Nat → Nat) (attempt : Nat) : Nat :=
  1000 * 2 ^ attempt + jitter attempt

/-- part_002 `HttpClient.post` (v2.2 revision, lines 316-346),
`Config.RETRY_ATTEMPTS = 3`.  A non-ok response with status ≥ 500 recurses
with `attempt + 1` after `Utils.backoffDelay(attempt)` while
`attempt < RETRY_ATTEMPTS` (`remaining > 0` here); otherwise it throws
`Server Error: <status>`, which the catch rethrows (a plain `Error` is
neither `AbortError` nor `TypeError`).  A retryable rejection recurses the
same way; other rejections are rethrown. -/
def httpPost (server : Nat → PostOutcome) (jitter : Nat → Nat) :
    Nat → Nat → HPTrace
  | attempt, 0 =>
    match server attempt with
    | .resp s =>
      if statusOk s then ⟨.ok s, 1, []⟩ else ⟨.errStatus s, 1, []⟩
    | .throwRetryable e => ⟨.errThrown e, 1, []⟩
    | .throwOther e => ⟨.errThrown e, 1, []⟩
  | attempt, r + 1 =>
    match server attempt with
    | .resp s =>
      if statusOk s then ⟨.ok s, 1, []⟩
      else if decide (500 ≤ s) then
        (httpPost server jitter (attempt + 1) r).retried (backoffDelay jitter attempt)
      else ⟨.errStatus s, 1, []⟩
    | .throwRetryable _ =>
      (httpPost server jitter (attempt + 1) r).retried (backoffDelay jitter attempt)
    | .throwOther e => ⟨.errThrown e, 1, []⟩

/-- part_002 `HttpClient.post` entered with the default `attempt = 0` and
`RETRY_ATTEMPTS = 3` retries allowed. -/
def httpPostTop (server : Nat → PostOutcome) (jitter : Nat → Nat) : HPTrace :=
  httpPost server jitter 0 3

/- ===================== dash.js fetchWithRetry ===================== -/

/-- Outcome of one transport attempt for dash.js `fetchWithTimeout`: the
fetch resolves with a response, hangs until the timeout aborts it, or
rejects with some other error. -/
inductive DashOutcome where
  | resp (status : Int)
  | abortTimeout
  | throwErr (e : Nat)
deriving DecidableEq

/-- How one dash.js `fetchWithRetry` call resolves. -/
inductive DashResult where
  | resp (status : Int)   -- returned the HTTP response, whatever its status
  | errTimeout            -- threw `Request timeout - please try again`
  | errThrown (e : Nat)   -- rethrew a transport error
deriving DecidableEq

/-- Observable trace of one dash.js `fetchWithRetry` call. -/
structure DashTrace where
  result : DashResult
  requests : Nat
  delays : List Nat
deriving DecidableEq

/-- Account for one more request issued before a retry that waited `d` ms. -/
def DashTrace.retried (t : DashTrace) (d : Nat) : DashTrace :=
  { t with requests := t.requests + 1, delays := d :: t.delays }

/-- dash.js `MedAIApp.fetchWithRetry` (lines 256-266) over `fetchWithTimeout`
(lines 234-254), `Config.MAX_RETRIES = 2`.  `fetchWithTimeout` returns the
response for every HTTP status (fetch does not throw on error statuses), maps
an `AbortError` to a timeout error and rethrows other rejections; the retry
loop catches only these thrown errors and retries after
`sleep(1000 * Math.pow(2, i))` while `i < retries` (`remaining > 0` here).
An HTTP error status such as 503 is therefore returned, never retried. -/
def dashFetchWithRetry (server : Nat → DashOutcome) :
    Nat → Nat → DashTrace
  | i, 0 =>
    match server i with
    | .resp s => ⟨.resp s, 1, []⟩
    | .abortTimeout => ⟨.errTimeout, 1, []⟩
    | .throwErr e => ⟨.errThrown e, 1, []⟩
  | i, r + 1 =>
    match server i with
    | .resp s => ⟨.resp s, 1, []⟩
    | .abortTimeout => (dashFetchWithRetry server (i + 1) r).retried (1000 * 2 ^ i)
    | .throwErr _ => (dashFetchWithRetry server (i + 1) r).retried (1000 * 2 ^ i)

/-- dash.js `MedAIApp.fetchWithRetry` entered with the default
`retries = Config.MAX_RETRIES = 2`. -/
def dashFetchWithRetryTop (server : Nat → DashOutcome) : DashTrace :=
  dashFetchWithRetry server 0 2

/- ===================== part_001 recursive retry wrappers ===================== -/

/-- part_001 `MedAICore.uploadToAIWithRetry` (v2.0.0 revision, lines
1039-1059), `RETRY_ATTEMPTS = 3`.  Starting from `attempt = 1` it returns the
first successful upload; on an error it rethrows when
`attempt >= maxAttempts` and otherwise recurses with `attempt + 1` after the
retry delay.  `remaining = maxAttempts - attempt`, so `attempt >= maxAttempts`
is `remaining = 0` here; the second component counts upload attempts. -/
def uploadToAIWithRetry (server : Nat → Except Nat Nat) :
    Nat → Nat → Except Nat Nat × Nat
  | attempt, 0 =>
    match server attempt with
    | .ok v => (.ok v, 1)
    | .error e => (.error e, 1)
  | attempt, r + 1 =>
    match server attempt with
    | .ok v => (.ok v, 1)
    | .error _ =>
      let t := uploadToAIWithRetry server (attempt + 1) r
      (t.1, t.2 + 1)

/-- part_001 `MedAICore.uploadToAIWithRetry` entered with the default
`attempt = 1` and `maxAttempts = RETRY_ATTEMPTS = 3`. -/
def uploadToAIWithRetryTop (server : Nat → Except Nat Nat) : Except Nat Nat × Nat :=
  uploadToAIWithRetry server 1 2

/-- part_001 `MedAICore.uploadWithRetry` (v1.2.0 revision, lines 1986-1997),
`RETRIES = 2`.  Starting from `attempt = 1` it retries an error with
`attempt + 1` while `attempt <= RETRIES` and otherwise rethrows it.  With
`remaining = (RETRIES + 1) - attempt` the guard `attempt <= RETRIES` is
`remaining > 0` here; the second component counts upload attempts. -/
def uploadWithRetry (server : Nat → Except Nat Nat) :
    Nat → Nat → Except Nat Nat × Nat
  | attempt, 0 =>
    match server attempt with
    | .ok v => (.ok v, 1)
    | .error e => (.error e, 1)
  | attempt, r + 1 =>
    match server attempt with
    | .ok v => (.ok v, 1)
    | .error _ =>
      let t := uploadWithRetry server (attempt + 1) r
      (t.1, t.2 + 1)

/-- part_001 `MedAICore.uploadWithRetry` entered with the default
`attempt = 1` and `RETRIES = 2`. -/
def uploadWithRetryTop (server : Nat → Except Nat Nat) : Except Nat Nat × Nat :=
  uploadWithRetry server 1 2

/- ===================== Timeout timer hygiene ===================== -/

/-- Outcome of a single guarded transport operation relative to its timeout:
the fetch resolves before the timeout, rejects before the timeout, or hangs
until the timeout callback fires and aborts it. -/
inductive TransportEvent where
  | resolves (status : Int)
  | rejects (e : Nat)
  | hangs
deriving DecidableEq

/-- Final state of the timeout timer scheduled by one envelope call. -/
inductive TimerState where
  | cleared   -- clearTimeout reached while the timer was still scheduled
  | fired     -- the timeout callback ran; the timer is no longer scheduled
  | pendingLeak  -- neither cleared nor fired: a dangling scheduled callback
deriving DecidableEq

/-- A timer is dangling exactly when it is still scheduled. -/
def TimerState.dangling : TimerState → Bool
  | .pendingLeak => true
  | _ => false

/-- dash.js `MedAIApp.fetchWithTimeout` (lines 234-254): `clearTimeout` runs
on the resolve path and in the catch block, so the timer is cleared whenever
the fetch settles; when the request hangs the timer fires, aborts the fetch
and the catch handles the `AbortError`. -/
def fetchWithTimeoutTimer : TransportEvent → TimerState
  | .resolves _ => .cleared
  | .rejects _ => .cleared
  | .hangs => .fired

/-- dash.js `MedAIApp.fetchWithTimeout`: how the call resolves.  An
`AbortError` is mapped to `Request timeout - please try again`. -/
def fetchWithTimeoutResult : TransportEvent → DashResult
  | .resolves s => .resp s
  | .rejects e => .errThrown e
  | .hangs => .errTimeout

/-- part_002 `HttpClient.post` (lines 316-346): `clearTimeout(tid)` sits in a
`finally` block, so it runs on every path; a hanging request's timer fires
before aborting. -/
def httpPostTimer : TransportEvent → TimerState
  | .resolves _ => .cleared
  | .rejects _ => .cleared
  | .hangs => .fired

/-- part_001 `MedAICore.uploadToAI` (v1.1.0 revision, lines 528-554):
`clearTimeout(timeoutId)` is only reached after `await fetch` resolves; when
the fetch rejects before the timeout the exception propagates and the timer
is left scheduled. -/
def uploadToAITimer : TransportEvent → TimerState
  | .resolves _ => .cleared
  | .rejects _ => .pendingLeak
  | .hangs => .fired

/- ===================== Loading-flag cleanup ===================== -/

/-- The distinct ways a logical analysis action can finish, following the
spec's error taxonomy (section 7). -/
inductive EnvelopeOutcome where
  | success
  | timeout
  | networkError
  | serverError (status : Int)
  | authRejected
  | invalidSchema
  | captureError
deriving DecidableEq

/-- dash.js `MedAIApp.handleCapture` (lines 268-335): final `isProcessing`
flag.  An action already in flight returns untouched; an offline state or a
failed `validateCameraState` returns before `setLoading(true)`; otherwise the
whole pipeline runs inside `try ... finally { this.setLoading(false) }`, so
every outcome — success or any error kind — funnels into the cleanup. -/
def handleCaptureFinalProcessing (isProcessing isOnline cameraReady : Bool)
    (outcome : EnvelopeOutcome) : Bool :=
  if isProcessing then isProcessing
  else if !isOnline then isProcessing
  else if !cameraReady then isProcessing
  else
    match outcome with
    | .success => false
    | .timeout => false
    | .networkError => false
    | .serverError _ => false
    | .authRejected => false
    | .invalidSchema => false
    | .captureError => false

/-- auth.js `MedAIApp.sendForAnalysis` (second revision, lines 379-407):
final `isProcessing` flag.  After the `isProcessing` guard the body runs
inside `try ... finally { this.setLoading(false) }`; the early
`if (!response) return` after an auth logout is inside the try, so the
finally still runs. -/
def sendForAnalysisFinalProcessing (isProcessing : Bool)
    (outcome : EnvelopeOutcome) : Bool :=
  if isProcessing then isProcessing
  else
    match outcome with
    | .success => false
    | .timeout => false
    | .networkError => false
    | .serverError _ => false
    | .authRejected => false
    | .invalidSchema => false
    | .captureError => false

/-- part_001 `MedAIApp.processLocalFile` (v2.6.0 revision, lines 224-254):
final `isProcessing` flag.  An oversized file returns before
`setLoading(true)`; otherwise the upload runs inside
`try ... finally { this.setLoading(false) }`. -/
def processLocalFileFinalProcessing (isProcessing fileTooLarge : Bool)
    (outcome : EnvelopeOutcome) : Bool :=
  if fileTooLarge then isProcessing
  else
    match outcome with
    | .success => false
    | .timeout => false
    | .networkError => false
    | .serverError _ => false
    | .authRejected => false
    | .invalidSchema => false
    | .captureError => false

/- ===================== Abort-controller handling ===================== -/

/-- The single controller slot kept by the v1.1.0 core and by dash.js, plus
the set of controller ids that have received an abort signal. -/
structure ControllerState where
  current : Option Nat
  aborted : List Nat
deriving DecidableEq

/-- part_001 `MedAICore.uploadToAI` (v1.1.0 revision, lines 528-533):
`this.state.controller?.abort(); this.state.controller = new AbortController()`
— the previous in-flight controller is aborted before the new request is
issued with the fresh controller `newId`. -/
def uploadToAIAcquire (st : ControllerState) (newId : Nat) : ControllerState :=
  { current := some newId,
    aborted :=
      match st.current with
      | some c => c :: st.aborted
      | none => st.aborted }

/-- dash.js `MedAIApp.fetchWithTimeout` (lines 234-241):
`this.abortController = new AbortController()` — the slot is overwritten and
the previous controller receives no abort signal. -/
def fetchWithTimeoutAcquire (st : ControllerState) (newId : Nat) : ControllerState :=
  { current := some newId, aborted := st.aborted }

/-- The controller set kept by the v2.0.0 core (`state.abortControllers`). -/
structure ControllerSet where
  live : List Nat
  aborted : List Nat
deriving DecidableEq

/-- part_001 `MedAICore.abortAllRequests` (v2.0.0 revision, lines 1366-1369):
every live controller is aborted and the set is cleared. -/
def abortAllRequests (st : ControllerSet) : ControllerSet :=
  { live := [], aborted := st.live ++ st.aborted }

/-- part_001 `MedAICore.uploadToAI` (v2.0.0 revision, lines 1061-1079):
`this.abortAllRequests()` then a fresh controller is created and added before
the request is issued. -/
def uploadToAIAcquireV2 (st : ControllerSet) (newId : Nat) : ControllerSet :=
  let cleared := abortAllRequests st
  { cleared with live := [newId] }

/-- dash.js `MedAIApp.handleCapture` (lines 268-270): a capture action started
while `isProcessing` is set returns immediately, so no second request is ever
sent while the first is in flight. -/
def handleCaptureStarts (isProcessing : Bool) : Bool := !isProcessing

/- ===================== Service-worker fetch handler ===================== -/

/-- The inputs that determine the service worker's handling of one fetch
event. -/
structure SWRequest where
  reqMethod : String
  inCache : Bool
  sameOrigin : Bool
  acceptsHtml : Bool
  networkSucceeds : Bool
deriving DecidableEq

/-- How the service worker disposes of one fetch event. -/
inductive SWResponse where
  | passThrough                  -- handler returned before respondWith
  | fromCache
  | fromNetwork (storedInCache : Bool)
  | offlineFallback
  | networkFailure
deriving DecidableEq

/-- part_000 service-worker fetch listener (lines 60-88): non-GET requests
return before `event.respondWith`, so they pass through to the network; GET
requests are served cache-first, network responses of same-origin GETs are
stored with `cache.put`, and failed HTML navigations fall back to the offline
page. -/
def swFetchHandler (req : SWRequest) : SWResponse :=
  if req.reqMethod ≠ "GET" then .passThrough
  else if req.inCache then .fromCache
  else if req.networkSucceeds then .fromNetwork req.sameOrigin
  else if req.acceptsHtml then .offlineFallback
  else .networkFailure

/-- Whether a disposition stored the response in the cache. -/
def SWResponse.storesInCache : SWResponse → Bool
  | .fromNetwork stored => stored
  | _ => false

/-- Whether a disposition served the request from the cache. -/
def SWResponse.servedFromCache : SWResponse → Bool
  | .fromCache => true
  | .offlineFallback => true
  | _ => false

/- ===================== sendForAnalysis effect ===================== -/

/-- The user-visible effect of one `sendForAnalysis` run after the secure
fetch resolves. -/
inductive AnalysisEffect where
  | rendered         -- `displayResults(data)` was invoked
  | failureNotified  -- the catch block showed `Analysis failed.`
  | silentReturn     -- the `if (!response) return` path: nothing shown
deriving DecidableEq

/-- auth.js `MedAIApp.sendForAnalysis` (second revision, lines 379-407): an
`undefined` fetch result returns silently; a returned response has its parsed
body `body` checked by `validateResponseSchema`, rendering it on success and
throwing into the catch (which notifies a generic failure) otherwise; a fetch
error reaches the same catch. -/
def sendForAnalysisEffect (r : FetchResult) (body : Json) : AnalysisEffect :=
  match r with
  | .undefined => .silentReturn
  | .ok _ => if validateResponseSchema body then .rendered else .failureNotified
  | .errThrown _ => .failureNotified
  | .errServer _ => .failureNotified

/- ===================== Scenario servers ===================== -/

/-- A server answering 503 on the first two attempts and 200 on the third
(part_002 `HttpClient.post` outcomes). -/
def postServer503 (n : Nat) : PostOutcome := if n < 2 then .resp 503 else .resp 200

/-- A server answering 503 on the first two attempts and 200 on the third
(auth.js `fetchSecure` outcomes). -/
def authServer503 (n : Nat) : AttemptOutcome := if n < 2 then .resp 503 else .resp 200

/-- A server answering 503 on the first two attempts and 200 on the third
(dash.js `fetchWithTimeout` outcomes). -/
def dashServer503 (n : Nat) : DashOutcome := if n < 2 then .resp 503 else .resp 200

/- ===================== Helper lemmas ===================== -/

/-- With a stored token, `fetchSecure` runs its retry loop from attempt 0
with `MAX_RETRIES = 2` retries allowed. -/
theorem fetchSecure_some (server : Nat → AttemptOutcome) (st : Store)
    (tk : String) (htk : st.token = some tk) :
    fetchSecure server st = fetchSecureGo server st 0 2 := by
  unfold fetchSecure
  rw [htk]

/-- A 401/403 response makes the `fetchSecure` loop resolve `undefined` at
once, with the store logged out, whatever retry budget remains. -/
theorem fetchSecureGo_auth (server : Nat → AttemptOutcome) (st : Store)
    (attempt r : Nat) (s : Int) (hs : server attempt = .resp s)
    (hauth : isAuthStatus s = true) :
    fetchSecureGo server st attempt r = ⟨.undefined, 1, [], logout st⟩ := by
  cases r <;> simp [fetchSecureGo, hs, hauth]

/-- The `fetchSecure` loop with `r` retries allowed makes at most `r + 1`
transport requests. -/
theorem fetchSecureGo_requests_le (server : Nat → AttemptOutcome) (st : Store) :
    ∀ r attempt, (fetchSecureGo server st attempt r).requests ≤ r + 1 := by
  intro r
  induction r with
  | zero =>
    intro attempt
    cases h : server attempt with
    | resp s =>
      simp only [fetchSecureGo, h]
      split_ifs <;> simp
    | throw e => simp [fetchSecureGo, h]
  | succ r ih =>
    intro attempt
    cases h : server attempt with
    | resp s =>
      simp only [fetchSecureGo, h]
      split_ifs <;> simp [FetchTrace.retried]
      exact ih (attempt + 1)
    | throw e =>
      simp only [fetchSecureGo, h, FetchTrace.retried]
      have := ih (attempt + 1)
      omega

/-- `uploadToAIWithRetry` with `r` retries allowed makes at most `r + 1`
upload attempts. -/
theorem uploadToAIWithRetry_requests_le (server : Nat → Except Nat Nat) :
    ∀ r attempt, (uploadToAIWithRetry server attempt r).2 ≤ r + 1 := by
  intro r
  induction r with
  | zero =>
    intro attempt
    cases h : server attempt <;> simp [uploadToAIWithRetry, h]
  | succ r ih =>
    intro attempt
    cases h : server attempt with
    | ok v => simp [uploadToAIWithRetry, h]
    | error e =>
      simp only [uploadToAIWithRetry, h]
      have := ih (attempt + 1)
      omega

/-- `uploadWithRetry` with `r` retries allowed makes at most `r + 1` upload
attempts. -/
theorem uploadWithRetry_requests_le (server : Nat → Except Nat Nat) :
    ∀ r attempt, (uploadWithRetry server attempt r).2 ≤ r + 1 := by
  intro r
  induction r with
  | zero =>
    intro attempt
    cases h : server attempt <;> simp [uploadWithRetry, h]
  | succ r ih =>
    intro attempt
    cases h : server attempt with
    | ok v => simp [uploadWithRetry, h]
    | error e =>
      simp only [uploadWithRetry, h]
      have := ih (attempt + 1)
      omega

/- ===================== Claim theorems ===================== -/

/-- C1 (amended): in auth.js `fetchSecure` a 401/403 on the first attempt
resolves the call with `undefined` after exactly one request, with the
session store cleared (token and user removed, redirect issued) before the
call resolves; `MedAICore.uploadToAI` (v1.1.0) likewise removes the stored
token and throws after its single request.  (part_001's `fetchWithRetry`, by
contrast, retries 401/403 like any failure and never touches the store — see
its counterexample.) -/
theorem auth_rejected_once_c1 (server : Nat → AttemptOutcome) (st st2 : Store)
    (tk : String) (s : Int) (htk : st.token = some tk)
    (hs : server 0 = .resp s) (hauth : isAuthStatus s = true) :
    fetchSecure server st = ⟨.undefined, 1, [], logout st⟩
  ∧ uploadToAI (.resp s) st2 = (.authThrow, 1, { st2 with token := none }) := by
  constructor
  · rw [fetchSecure_some server st tk htk,
      fetchSecureGo_auth server st 0 2 s hs hauth]
  · simp [uploadToAI, hauth]

/-- Witness for C1: a concrete all-401 server and a populated store. -/
theorem auth_rejected_once_c1_witness :
    fetchSecure (fun _ => .resp 401) ⟨some "tok", some "usr", false⟩ =
      ⟨.undefined, 1, [], ⟨none, none, true⟩⟩
  ∧ uploadToAI (.resp 401) ⟨some "tok", some "usr", false⟩ =
      (.authThrow, 1, ⟨none, some "usr", false⟩) :=
  auth_rejected_once_c1 (fun _ => .resp 401) ⟨some "tok", some "usr", false⟩
    ⟨some "tok", some "usr", false⟩ "tok" 401 rfl rfl rfl

/-- C1 counterexample: against a server that always answers 401, part_001's
`fetchWithRetry` (a cited envelope implementation) makes three transport
requests, not one, and resolves with an `HTTP 401` error; it takes no session
store at all, so the stored token is not cleared. -/
theorem fetchWithRetry_retries_auth_c1_counterexample :
    fetchWithRetryP1Top (fun _ => .resp 401) = ⟨.errHTTP 401, 3, [1000, 2000]⟩ := rfl

/-- C2 (amended): auth.js `validateResponseSchema` accepts a decoded value
exactly when it has a string `diagnosis`, a numeric `confidence` and an array
`findings` (extra fields never matter), and `sendForAnalysis` only invokes
the Result Presenter on values that validator accepts; part_001's
`validateAIResponse`, however, accepts values missing required fields — see
its counterexample. -/
theorem validator_schema_c2 :
    (∀ data, validateResponseSchema data = specRequiredShape data)
  ∧ (∀ (r : FetchResult) (body : Json),
      sendForAnalysisEffect r body = .rendered →
        validateResponseSchema body = true) := by
  constructor
  · intro data
    cases data <;>
      simp [validateResponseSchema, specRequiredShape, Json.truthy,
        Json.typeofObject, Json.get, Json.typeofString, Json.typeofNumber,
        Json.isArray, Bool.and_comm, Bool.and_left_comm, Bool.and_assoc]
  · intro r body h
    cases r with
    | undefined => simp [sendForAnalysisEffect] at h
    | ok s =>
      cases hv : validateResponseSchema body with
      | true => rfl
      | false => simp [sendForAnalysisEffect, hv] at h
    | errThrown e => simp [sendForAnalysisEffect] at h
    | errServer s => simp [sendForAnalysisEffect] at h

/-- Witness for C2: a response carrying the three required fields is rendered
and accepted. -/
theorem validator_schema_c2_witness :
    validateResponseSchema
      (Json.obj [("diagnosis", Json.str "ok"), ("confidence", Json.num 90),
        ("findings", Json.arr [])]) = true :=
  validator_schema_c2.2 (.ok 200)
    (Json.obj [("diagnosis", Json.str "ok"), ("confidence", Json.num 90),
      ("findings", Json.arr [])]) rfl

/-- C2 counterexample: part_001's `validateAIResponse` (a cited validator)
accepts an object that has only a `diagnosis` and lacks both `confidence`
and `findings`, which the claim says every validator must reject. -/
theorem validateAIResponse_c2_counterexample :
    validateAIResponse (Json.obj [("diagnosis", Json.str "flu")]) = true
  ∧ specRequiredShape (Json.obj [("diagnosis", Json.str "flu")]) = false :=
  ⟨rfl, rfl⟩

/-- C3 (amended): dash.js `updateConfidence` and part_002's `displayResults`
show `min(100, max(0, c))` for every numeric confidence `c`; the ULTIMATE
revision's `displayDiagnosis` (a cited presenter) shows the raw value `c`
with no clamping. -/
theorem confidence_clamp_c3 :
    (∀ c : Int, updateConfidence c = specClampedConfidence c)
  ∧ (∀ c : Int, displayResultsScore c = specClampedConfidence c)
  ∧ (∀ c : Int, displayDiagnosisConfidence c = c) := by
  refine ⟨fun c => rfl, fun c => ?_, fun c => ?_⟩
  · unfold displayResultsScore clamp specClampedConfidence
    omega
  · unfold displayDiagnosisConfidence
    split <;> omega

/-- C3 counterexample: at confidence 140 the ULTIMATE revision's
`displayDiagnosis` shows 140, not the clamped 100 the claim requires. -/
theorem displayDiagnosis_unclamped_c3_counterexample :
    displayDiagnosisConfidence 140 = 140 ∧ specClampedConfidence 140 = 100 := by
  constructor <;> decide

/-- C4 (amended): on 503, 503 then 200 with three attempts allowed,
part_002's `HttpClient.post` resolves with the successful 200 body after
three requests, with delays `1000 * 2 ^ attempt` plus the sub-300 ms jitter
— non-decreasing and within 300 ms of the base curve — and auth.js
`fetchSecure` does the same with jitter-free delays that also equal
`1000 * 2 ^ attempt` for the two delays of this scenario; dash.js
`fetchWithRetry`, however, never retries an HTTP 503 — see its
counterexample. -/
theorem backoff_success_c4 (jitter : Nat → Nat) (st : Store) (tk : String)
    (hj0 : jitter 0 < 300) (hj1 : jitter 1 < 300) (htk : st.token = some tk) :
    httpPostTop postServer503 jitter =
      ⟨.ok 200, 3, [1000 * 2 ^ 0 + jitter 0, 1000 * 2 ^ 1 + jitter 1]⟩
  ∧ 1000 * 2 ^ 0 + jitter 0 ≤ 1000 * 2 ^ 1 + jitter 1
  ∧ 1000 * 2 ^ 0 + jitter 0 ≤ 1000 * 2 ^ 0 + 300
  ∧ 1000 * 2 ^ 1 + jitter 1 ≤ 1000 * 2 ^ 1 + 300
  ∧ fetchSecure authServer503 st =
      ⟨.ok 200, 3, [1000 * 2 ^ 0, 1000 * 2 ^ 1], st⟩ := by
  refine ⟨rfl, ?_, ?_, ?_, ?_⟩
  · simp only [pow_zero, pow_one]
    omega
  · simp only [pow_zero]
    omega
  · simp only [pow_one]
    omega
  · rw [fetchSecure_some authServer503 st tk htk]
    rfl

/-- Witness for C4: zero jitter and a populated store. -/
theorem backoff_success_c4_witness :
    httpPostTop postServer503 (fun _ => 0) =
      ⟨.ok 200, 3, [1000 * 2 ^ 0 + 0, 1000 * 2 ^ 1 + 0]⟩
  ∧ 1000 * 2 ^ 0 + 0 ≤ 1000 * 2 ^ 1 + 0
  ∧ 1000 * 2 ^ 0 + 0 ≤ 1000 * 2 ^ 0 + 300
  ∧ 1000 * 2 ^ 1 + 0 ≤ 1000 * 2 ^ 1 + 300
  ∧ fetchSecure authServer503 ⟨some "tok", none, false⟩ =
      ⟨.ok 200, 3, [1000 * 2 ^ 0, 1000 * 2 ^ 1], ⟨some "tok", none, false⟩⟩ :=
  backoff_success_c4 (fun _ => 0) ⟨some "tok", none, false⟩ "tok"
    (by norm_num) (by norm_num) rfl

/-- C4 counterexample: dash.js `fetchWithRetry` (a cited envelope) resolves
after a single request with the first 503 response — an HTTP error status is
returned, not retried, so the envelope does not resolve with the successful
200 body of the third attempt. -/
theorem dash_no_retry_on_503_c4_counterexample :
    dashFetchWithRetryTop dashServer503 = ⟨.resp 503, 1, []⟩ := rfl

/-- C5: every run of the cited retry loops terminates after at most
`maxAttempts = 3` transport attempts (`MAX_RETRIES = 2` retries plus the
initial attempt for `fetchSecure`, `RETRY_ATTEMPTS = 3` attempts for
`uploadToAIWithRetry`, `RETRIES = 2` retries plus the initial attempt for
`uploadWithRetry`), and when every attempt fails the run resolves with the
last observed error. -/
theorem retry_bounded_c5 :
    (∀ (server : Nat → AttemptOutcome) (st : Store),
      (fetchSecure server st).requests ≤ 3)
  ∧ (∀ server : Nat → Except Nat Nat, (uploadToAIWithRetryTop server).2 ≤ 3)
  ∧ (∀ server : Nat → Except Nat Nat, (uploadWithRetryTop server).2 ≤ 3)
  ∧ (∀ e : Nat → Nat,
      uploadToAIWithRetryTop (fun a => .error (e a)) = (.error (e 3), 3))
  ∧ (∀ e : Nat → Nat,
      uploadWithRetryTop (fun a => .error (e a)) = (.error (e 3), 3))
  ∧ (∀ (e : Nat → Nat) (st : Store),
      fetchSecureGo (fun a => .throw (e a)) st 0 2 =
        ⟨.errThrown (e 2), 3, [1000, 2000], st⟩) := by
  refine ⟨?_, ?_, ?_, fun e => rfl, fun e => rfl, fun e st => rfl⟩
  · intro server st
    unfold fetchSecure
    cases h : st.token with
    | none => simp
    | some tk => exact fetchSecureGo_requests_le server st 2 0
  · intro server
    exact uploadToAIWithRetry_requests_le server 2 1
  · intro server
    exact uploadWithRetry_requests_le server 2 1

/-- C6 (amended): dash.js `fetchWithTimeout` and part_002's `HttpClient.post`
leave no dangling timeout timer however the call settles, and a hanging
request resolves as a Timeout; `MedAICore.uploadToAI` (v1.1.0), however,
leaks its timer when the fetch rejects before the timeout — see its
counterexample. -/
theorem timer_cleared_c6 :
    (∀ ev, (fetchWithTimeoutTimer ev).dangling = false)
  ∧ (∀ ev, (httpPostTimer ev).dangling = false)
  ∧ fetchWithTimeoutResult .hangs = .errTimeout
  ∧ (fetchWithTimeoutTimer .hangs).dangling = false := by
  refine ⟨?_, ?_, rfl, rfl⟩ <;> (intro ev; cases ev <;> rfl)

/-- C6 counterexample: when the fetch rejects before the timeout,
`MedAICore.uploadToAI` (v1.1.0, a cited envelope) resolves with the timer
still scheduled — a dangling callback. -/
theorem uploadToAI_dangling_timer_c6_counterexample :
    (uploadToAITimer (.rejects 7)).dangling = true := rfl

/-- C7: for every error kind of the taxonomy, each cited analysis action that
actually starts (its processing flag was clear) finishes with the processing
flag cleared again, because the pipeline runs inside a
`try ... finally setLoading(false)`. -/
theorem loading_cleared_c7 :
    (∀ (online cam : Bool) (o : EnvelopeOutcome),
      handleCaptureFinalProcessing false online cam o = false)
  ∧ (∀ o : EnvelopeOutcome, sendForAnalysisFinalProcessing false o = false)
  ∧ (∀ (big : Bool) (o : EnvelopeOutcome),
      processLocalFileFinalProcessing false big o = false) := by
  refine ⟨?_, ?_, ?_⟩
  · intro online cam o
    cases online <;> cases cam <;> cases o <;> rfl
  · intro o
    cases o <;> rfl
  · intro big o
    cases big <;> cases o <;> rfl

/-- C8 (amended): both part_001 `uploadToAI` revisions abort every previous
in-flight controller before the new request is issued; dash.js, however,
replaces its controller without aborting it, and serializes rapid captures
through the `isProcessing` guard instead (the second capture is dropped) —
see the counterexample. -/
theorem cancellation_c8 (st : ControllerState) (c : Nat) (hc : st.current = some c)
    (s2 : ControllerSet) (d : Nat) (hd : d ∈ s2.live) (newId : Nat) :
    c ∈ (uploadToAIAcquire st newId).aborted
  ∧ d ∈ (uploadToAIAcquireV2 s2 newId).aborted
  ∧ (uploadToAIAcquireV2 s2 newId).live = [newId]
  ∧ handleCaptureStarts true = false := by
  refine ⟨?_, ?_, rfl, rfl⟩
  · simp [uploadToAIAcquire, hc]
  · simp only [uploadToAIAcquireV2, abortAllRequests, List.mem_append]
    exact Or.inl hd

/-- Witness for C8: concrete controllers 1 (slot) and 5 (set) are aborted
when controller 2 is acquired. -/
theorem cancellation_c8_witness :
    1 ∈ (uploadToAIAcquire ⟨some 1, []⟩ 2).aborted
  ∧ 5 ∈ (uploadToAIAcquireV2 ⟨[5], []⟩ 2).aborted
  ∧ (uploadToAIAcquireV2 ⟨[5], []⟩ 2).live = [2]
  ∧ handleCaptureStarts true = false :=
  cancellation_c8 ⟨some 1, []⟩ 1 rfl ⟨[5], []⟩ 5 (by simp) 2

/-- C8 counterexample: dash.js `fetchWithTimeout` (a cited call site)
replaces the stored controller with the new one while sending no abort to the
previous in-flight controller 1. -/
theorem fetchWithTimeout_no_abort_c8_counterexample :
    (fetchWithTimeoutAcquire ⟨some 1, []⟩ 2).aborted = []
  ∧ (fetchWithTimeoutAcquire ⟨some 1, []⟩ 2).current = some 2 :=
  ⟨rfl, rfl⟩

/-- C9: the service worker's fetch handler lets every non-GET request — in
particular the diagnostic POST — pass through untouched: it neither serves it
from the cache nor stores its response. -/
theorem sw_nonget_c9 (req : SWRequest) (h : req.reqMethod ≠ "GET") :
    swFetchHandler req = .passThrough
  ∧ (swFetchHandler req).storesInCache = false
  ∧ (swFetchHandler req).servedFromCache = false := by
  have hmain : swFetchHandler req = .passThrough := by
    unfold swFetchHandler
    rw [if_pos h]
  refine ⟨hmain, ?_, ?_⟩ <;> rw [hmain] <;> rfl

/-- Witness for C9: a cached-shell POST request passes through. -/
theorem sw_nonget_c9_witness :
    swFetchHandler ⟨"POST", true, true, true, true⟩ = .passThrough
  ∧ (swFetchHandler ⟨"POST", true, true, true, true⟩).storesInCache = false
  ∧ (swFetchHandler ⟨"POST", true, true, true, true⟩).servedFromCache = false :=
  sw_nonget_c9 ⟨"POST", true, true, true, true⟩ (by decide)

/-- C10: when `fetchSecure` observes a 401/403 it resolves with `undefined`
(no throw), the session store is cleared with a redirect to login, and
`sendForAnalysis` returns silently on the `undefined` result — nothing is
rendered and no generic failure notification is shown. -/
theorem auth_silent_c10 (server : Nat → AttemptOutcome) (st : Store)
    (tk : String) (s : Int) (body : Json) (htk : st.token = some tk)
    (hs : server 0 = .resp s) (hauth : isAuthStatus s = true) :
    (fetchSecure server st).result = .undefined
  ∧ (fetchSecure server st).store.token = none
  ∧ (fetchSecure server st).store.user = none
  ∧ (fetchSecure server st).store.redirectedToLogin = true
  ∧ sendForAnalysisEffect .undefined body = .silentReturn := by
  have h : fetchSecure server st = ⟨.undefined, 1, [], logout st⟩ := by
    rw [fetchSecure_some server st tk htk,
      fetchSecureGo_auth server st 0 2 s hs hauth]
  refine ⟨?_, ?_, ?_, ?_, rfl⟩ <;> rw [h] <;> rfl

/-- Witness for C10: a concrete all-403 server and a populated store. -/
theorem auth_silent_c10_witness :
    (fetchSecure (fun _ => .resp 403) ⟨some "tok", some "usr", false⟩).result = .undefined
  ∧ (fetchSecure (fun _ => .resp 403) ⟨some "tok", some "usr", false⟩).store.token = none
  ∧ (fetchSecure (fun _ => .resp 403) ⟨some "tok", some "usr", false⟩).store.user = none
  ∧ (fetchSecure (fun _ => .resp 403)
      ⟨some "tok", some "usr", false⟩).store.redirectedToLogin = true
  ∧ sendForAnalysisEffect .undefined (Json.obj []) = .silentReturn :=
  auth_silent_c10 (fun _ => .resp 403) ⟨some "tok", some "usr", false⟩ "tok" 403
    (Json.obj []) rfl rfl rfl
